import Mathlib

/-!
Verification development for the fridge-check repository.

The repository has two components:
* a stateless analysis gateway (api/analyze.js) that validates a request,
  calls an upstream completion model once, extracts a JSON object from the
  free-text reply and returns it augmented with token usage, and
* a client wizard (src/App.jsx) holding the UI state, issuing one network
  call per user action and accumulating a per-session environmental impact.

JavaScript numbers are modelled as exact rationals.  JSON values, the
truthiness rules of JavaScript and the object-spread semantics used by the
gateway are modelled explicitly below.
-/

/-- Model of a JavaScript JSON value.  Object fields are kept as an ordered
association list, matching the insertion order of JavaScript objects.
The value null also stands for the JavaScript undefined, which behaves the
same in every path modelled here (both are falsy and unrendered). -/
inductive Json where
  | null : Json
  | bool (b : Bool) : Json
  | num (q : ℚ) : Json
  | str (s : String) : Json
  | arr (elems : List Json) : Json
  | obj (fields : List (String × Json)) : Json

/-- Field lookup in an object field list: the value of the first binding of
the key, as JavaScript property access does on the models built here. -/
def lookupField : List (String × Json) → String → Option Json
  | [], _ => none
  | (k1, v) :: rest, k => if k1 = k then some v else lookupField rest k

/-- Insertion with JavaScript object semantics: an existing key keeps its
position and gets the new value, a new key is appended at the end.  This is
the semantics of both repeated members in JSON.parse and of the object
spread followed by an explicit key in the gateway. -/
def insertField : List (String × Json) → String → Json → List (String × Json)
  | [], k, v => [(k, v)]
  | (k1, v1) :: rest, k, v =>
    if k1 = k then (k, v) :: rest else (k1, v1) :: insertField rest k v

/-- Truthiness of a JavaScript value: null, undefined, false, 0 and the
empty string are falsy, everything else is truthy. -/
def Json.truthy : Json → Bool
  | .null => false
  | .bool b => b
  | .num q => if q = 0 then false else true
  | .str s => if s = "" then false else true
  | .arr _ => true
  | .obj _ => true

/-- Property access, as used by the client on a parsed response body:
a missing field or a non-object base reads as undefined, modelled null. -/
def Json.getFieldJs : Json → String → Json
  | .obj fs, k =>
    match lookupField fs k with
    | some v => v
    | none => .null
  | _, _ => .null

/-- Model of the JavaScript binary or operator on values: the left operand
if truthy, the right one otherwise. -/
def jsOr (a b : Json) : Json := if a.truthy then a else b

/-- Numeric reading of a field.  Every path analysed below reads numbers
from fields that hold numbers; a non numeric field would give NaN in the
code and is mapped to 0 here, outside any claim. -/
def Json.asNum : Json → ℚ
  | .num q => q
  | _ => 0

/-- String test used for the strict equality of mode with a string literal. -/
def Json.isStrEq : Json → String → Bool
  | .str s, t => if s = t then true else false
  | _, _ => false

/-- The own enumerable fields contributed by a value under object spread:
an object contributes its fields, a primitive contributes none. -/
def jsonFields : Json → List (String × Json)
  | .obj fs => fs
  | _ => []

/-- Whitespace skipping of the JSON grammar. -/
def skipWs : List Char → List Char
  | [] => []
  | c :: cs =>
    if c = ' ' ∨ c = '\t' ∨ c = '\n' ∨ c = '\r' then skipWs cs else c :: cs

/-- Value of a hexadecimal digit. -/
def hexVal (c : Char) : Option ℕ :=
  if '0' ≤ c ∧ c ≤ '9' then some (c.toNat - '0'.toNat)
  else if 'a' ≤ c ∧ c ≤ 'f' then some (c.toNat - 'a'.toNat + 10)
  else if 'A' ≤ c ∧ c ≤ 'F' then some (c.toNat - 'A'.toNat + 10)
  else none

/-- Single character escapes of JSON strings. -/
def escMap : Char → Option Char
  | '"' => some '"'
  | '\\' => some '\\'
  | '/' => some '/'
  | 'b' => some (Char.ofNat 8)
  | 'f' => some (Char.ofNat 12)
  | 'n' => some '\n'
  | 'r' => some '\r'
  | 't' => some '\t'
  | _ => none

/-- Remainder of a JSON string after the opening quote: the decoded
characters and the input after the closing quote. -/
def parseStringRest : List Char → Option (List Char × List Char)
  | [] => none
  | '"' :: rest => some ([], rest)
  | '\\' :: rest =>
    match rest with
    | [] => none
    | 'u' :: a :: b :: c :: d :: rest2 =>
      match hexVal a, hexVal b, hexVal c, hexVal d with
      | some ha, some hb, some hc, some hd =>
        match parseStringRest rest2 with
        | some (s, r) =>
          some (Char.ofNat (((ha * 16 + hb) * 16 + hc) * 16 + hd) :: s, r)
        | none => none
      | _, _, _, _ => none
    | e :: rest2 =>
      match escMap e with
      | some ec =>
        match parseStringRest rest2 with
        | some (s, r) => some (ec :: s, r)
        | none => none
      | none => none
  | c :: rest =>
    match parseStringRest rest with
    | some (s, r) => some (c :: s, r)
    | none => none

/-- Value of a digit string. -/
def digitsVal (ds : List Char) : ℕ :=
  ds.foldl (fun a c => a * 10 + (c.toNat - '0'.toNat)) 0

/-- Sign application for a parsed number. -/
def signApply (neg : Bool) (q : ℚ) : ℚ := if neg then -q else q

/-- Optional exponent part of a JSON number, applied to the mantissa. -/
def parseExpPart (neg : Bool) (mant : ℚ) (cs : List Char) :
    Option (Json × List Char) :=
  match cs with
  | c :: r =>
    if c = 'e' ∨ c = 'E' then
      let (es, r1) : ℤ × List Char :=
        match r with
        | '+' :: r2 => (1, r2)
        | '-' :: r2 => (-1, r2)
        | _ => (1, r)
      let (ed, r2) := r1.span (fun d => d.isDigit)
      if ed = [] then none
      else some (.num (signApply neg (mant * (10 : ℚ) ^ (es * (digitsVal ed : ℤ)))), r2)
    else some (.num (signApply neg mant), cs)
  | [] => some (.num (signApply neg mant), [])

/-- JSON number: optional minus, integer part without leading zeros,
optional fraction, optional exponent. -/
def parseNum (cs : List Char) : Option (Json × List Char) :=
  let (neg, cs1) : Bool × List Char :=
    match cs with
    | '-' :: r => (true, r)
    | _ => (false, cs)
  let (ds, cs2) := cs1.span (fun d => d.isDigit)
  if ds = [] then none
  else if 1 < ds.length ∧ ds.head? = some '0' then none
  else
    let ip : ℚ := (digitsVal ds : ℚ)
    match cs2 with
    | '.' :: r =>
      let (fd, r2) := r.span (fun d => d.isDigit)
      if fd = [] then none
      else parseExpPart neg (ip + (digitsVal fd : ℚ) / (10 : ℚ) ^ fd.length) r2
    | _ => parseExpPart neg ip cs2

mutual

/-- JSON value, by recursive descent with a fuel bound on the recursion. -/
def parseValue : ℕ → List Char → Option (Json × List Char)
  | 0, _ => none
  | f + 1, cs =>
    match skipWs cs with
    | 'n' :: 'u' :: 'l' :: 'l' :: rest => some (.null, rest)
    | 't' :: 'r' :: 'u' :: 'e' :: rest => some (.bool true, rest)
    | 'f' :: 'a' :: 'l' :: 's' :: 'e' :: rest => some (.bool false, rest)
    | '"' :: rest =>
      match parseStringRest rest with
      | some (sChars, rest2) => some (.str (String.mk sChars), rest2)
      | none => none
    | '[' :: rest =>
      match skipWs rest with
      | ']' :: rest2 => some (.arr [], rest2)
      | rest2 =>
        match parseArrayLoop f rest2 with
        | some (vs, rest3) => some (.arr vs, rest3)
        | none => none
    | '\x7b' :: rest =>
      match skipWs rest with
      | '\x7d' :: rest2 => some (.obj [], rest2)
      | rest2 =>
        match parseObjLoop f rest2 with
        | some (ms, rest3) =>
          some (.obj (ms.foldl (fun acc kv => insertField acc kv.1 kv.2) []), rest3)
        | none => none
    | rest => parseNum rest

/-- Comma separated values up to the closing square bracket. -/
def parseArrayLoop : ℕ → List Char → Option (List Json × List Char)
  | 0, _ => none
  | f + 1, cs =>
    match parseValue f cs with
    | some (v, rest) =>
      match skipWs rest with
      | ',' :: rest2 =>
        match parseArrayLoop f rest2 with
        | some (vs, rest3) => some (v :: vs, rest3)
        | none => none
      | ']' :: rest2 => some ([v], rest2)
      | _ => none
    | none => none

/-- Comma separated members up to the closing curly bracket. -/
def parseObjLoop : ℕ → List Char → Option (List (String × Json) × List Char)
  | 0, _ => none
  | f + 1, cs =>
    match skipWs cs with
    | '"' :: rest =>
      match parseStringRest rest with
      | some (kChars, rest2) =>
        match skipWs rest2 with
        | ':' :: rest3 =>
          match parseValue f rest3 with
          | some (v, rest4) =>
            match skipWs rest4 with
            | ',' :: rest5 =>
              match parseObjLoop f rest5 with
              | some (ms, rest6) => some ((String.mk kChars, v) :: ms, rest6)
              | none => none
            | '\x7d' :: rest5 => some ([(String.mk kChars, v)], rest5)
            | _ => none
          | none => none
        | _ => none
      | none => none
    | _ => none

end

/-- Model of JSON.parse: one JSON value spanning the whole input up to
trailing whitespace.  The fuel bound of two steps per character dominates
the recursion depth of the grammar on the input. -/
def Json.parseStr (s : String) : Option Json :=
  match parseValue (2 * s.length + 2) s.toList with
  | some (j, rest) => if skipWs rest = [] then some j else none
  | none => none

/-- Index of the first occurrence of a character in a list. -/
def firstIdxOf (c : Char) : List Char → Option ℕ
  | [] => none
  | x :: xs => if x = c then some 0 else (firstIdxOf c xs).map (· + 1)

/-- Index of the last occurrence of a character in a list. -/
def lastIdxOf (c : Char) (cs : List Char) : Option ℕ :=
  (firstIdxOf c cs.reverse).map (fun k => cs.length - 1 - k)

/-- Model of the regular expression match used at analyze.js line 117 on
the reply text: a curly brace open, any characters, a curly brace close.
The match, when it exists, runs from the first opening brace to the last
closing brace; it exists exactly when the first opening brace lies strictly
before the last closing brace. -/
def extractJsonSpan (s : String) : Option String :=
  match firstIdxOf '\x7b' s.toList, lastIdxOf '\x7d' s.toList with
  | some i, some j =>
    if i < j then some (String.mk ((s.toList.drop i).take (j - i + 1))) else none
  | _, _ => none

/-- Reply of the upstream completion model: the free text of the first
content block and the reported token usage numbers. -/
structure UpstreamReply where
  text : String
  input_tokens : ℚ
  output_tokens : ℚ

/-- Failure of an upstream call, as caught at analyze.js line 139: the
fields of the thrown error that the handler reads. -/
structure UpstreamFailure where
  message : Json
  status : Json
  code : Json

/-- Request to the upstream model built by the handler: the image payload
with the fixed photo instruction, or the fixed text instruction embedding
the ingredient string of the user.  The constant instruction text plays no
further role and is elided. -/
inductive Prompt where
  | photoPrompt (image : Json) : Prompt
  | textPrompt (ingredients : Json) : Prompt

/-- Incoming request, with the body fields as JavaScript values so that
absence and falsiness behave as in the code. -/
structure Req where
  method : String
  image : Json
  ingredients : Json
  mode : Json

/-- Outcome of the handler before any upstream interaction: either an
immediate response, or the single upstream call it is about to make. -/
inductive Step1 where
  | respond (status : ℕ) (body : Option Json) : Step1
  | callUpstream (prompt : Prompt) : Step1

/-- First phase of the handler of api/analyze.js, lines 8 to 110: CORS
preflight, method check, credential check, then the mode dispatch that
either starts the one upstream call or rejects the request. -/
def handlerStep1 (apiKeyConfigured : Bool) (req : Req) : Step1 :=
  if req.method = "OPTIONS" then .respond 200 none
  else if ¬ (req.method = "POST") then
    .respond 405 (some (.obj [("error", .str "Method not allowed")]))
  else if ¬ apiKeyConfigured then
    .respond 500 (some (.obj [("error", .str "API key not configured")]))
  else if req.mode.isStrEq "photo" ∧ req.image.truthy then
    .callUpstream (.photoPrompt req.image)
  else if req.mode.isStrEq "text" ∧ req.ingredients.truthy then
    .callUpstream (.textPrompt req.ingredients)
  else
    .respond 400 (some (.obj [("error", .str "Invalid request: provide image or ingredients")]))

/-- Usage object attached to every successful gateway response,
analyze.js lines 133 to 136. -/
def usageJson (reply : UpstreamReply) : Json :=
  .obj [("input_tokens", .num reply.input_tokens), ("output_tokens", .num reply.output_tokens)]

/-- Body of the parse failure response, analyze.js lines 125 to 128. -/
def parseErrorBody (analysisText : String) : Json :=
  .obj [("error", .str "Could not parse AI response"), ("raw", .str analysisText)]

/-- Second phase of the handler, analyze.js lines 112 to 137: extract the
JSON span from the reply text, parse it, and on success return the parsed
object spread together with the usage field; on extraction or parse
failure return the 500 parse error carrying the raw text. -/
def handlerStep2 (reply : UpstreamReply) : ℕ × Json :=
  match extractJsonSpan reply.text with
  | none => (500, parseErrorBody reply.text)
  | some span =>
    match Json.parseStr span with
    | none => (500, parseErrorBody reply.text)
    | some analysis =>
      (200, .obj (insertField (jsonFields analysis) "usage" (usageJson reply)))

/-- Whole handler, with the upstream call modelled as the value the single
outbound request comes back with.  The failure branch is the catch of
analyze.js lines 139 to 145. -/
def handler (apiKeyConfigured : Bool) (req : Req)
    (upstream : Except UpstreamFailure UpstreamReply) : ℕ × Option Json :=
  match handlerStep1 apiKeyConfigured req with
  | .respond status body => (status, body)
  | .callUpstream _ =>
    match upstream with
    | .error e =>
      (500, some (.obj [("error", jsOr e.message (.str "Failed to analyze")),
                        ("details", jsOr e.status e.code)]))
    | .ok reply =>
      let r := handlerStep2 reply
      (r.1, some r.2)

/-- Token counts of one impact estimate, App.jsx line 11. -/
structure TokenCounts where
  input : ℚ
  output : ℚ
  total : ℚ
deriving DecidableEq

/-- Impact estimate returned by calculateImpact, App.jsx lines 10 to 17. -/
structure Impact where
  tokens : TokenCounts
  water : ℚ
  energy : ℚ
  co2 : ℚ
  phoneCharges : ℚ
  drinkingGlasses : ℚ
deriving DecidableEq

/-- The impact estimation formula of App.jsx lines 4 to 18. -/
def calculateImpact (inputTokens outputTokens : ℚ) : Impact :=
  let totalTokens := inputTokens + outputTokens
  let waterMl := totalTokens / 1000 * 0.5
  let energyKwh := totalTokens / 1000 * 0.0003
  let co2Grams := totalTokens / 1000 * 0.2
  { tokens := { input := inputTokens, output := outputTokens, total := totalTokens }
    water := waterMl
    energy := energyKwh
    co2 := co2Grams
    phoneCharges := energyKwh / 0.01
    drinkingGlasses := waterMl / 250 }

/-- Session accumulator state, App.jsx line 30. -/
structure TotalImpact where
  water : ℚ
  energy : ℚ
  co2 : ℚ
  scans : ℕ
deriving DecidableEq

/-- Client state: the useState fields of App, App.jsx lines 21 to 32.
The image file is kept abstract and the error holds the JavaScript value
passed to setError. -/
structure ClientState where
  mode : String
  image : Option String
  imagePreview : Option String
  ingredients : Json
  textInput : String
  recipes : Json
  loading : Bool
  error : Json
  impact : Option Impact
  totalImpact : TotalImpact
  showDevStats : Bool
  expandedRecipe : Option ℕ

/-- Initial client state, from the useState defaults. -/
def initialState : ClientState :=
  { mode := "choice"
    image := none
    imagePreview := none
    ingredients := .arr []
    textInput := ""
    recipes := .arr []
    loading := false
    error := .null
    impact := none
    totalImpact := { water := 0, energy := 0, co2 := 0, scans := 0 }
    showDevStats := false
    expandedRecipe := none }

/-- Characters removed by the JavaScript string trim on the inputs the
client handles. -/
def isJsWs (c : Char) : Bool := c = ' ' ∨ c = '\t' ∨ c = '\n' ∨ c = '\r'

/-- Model of the JavaScript string trim. -/
def jsTrim (s : String) : String :=
  String.mk (((s.toList.dropWhile isJsWs).reverse.dropWhile isJsWs).reverse)

/-- Typing into the ingredient textarea, App.jsx line 341. -/
def setTextInput (s : ClientState) (t : String) : ClientState :=
  { s with textInput := t }

/-- Outcome of the one fetch of a submission: the parsed response body on
success, or a rejection of the fetch or of the body parsing. -/
inductive FetchOutcome where
  | success (data : Json) : FetchOutcome
  | networkError : FetchOutcome

/-- Start of analyzeText, App.jsx lines 97 to 100: reject blank input with
no call and no state change, otherwise set loading, clear the error and
issue the one fetch.  The boolean reports whether the call was issued. -/
def analyzeTextStart (s : ClientState) : ClientState × Bool :=
  if jsTrim s.textInput = "" then (s, false)
  else ({ s with loading := true, error := .null }, true)

/-- Shared response handling of both submissions, App.jsx lines 109 to
126: an error field in the body is stored; otherwise ingredients and
recipes are stored (defaulting to empty arrays) and, when a usage field is
present, the impact is computed and accumulated into the session total. -/
def receiveData (s : ClientState) (data : Json) : ClientState :=
  if (data.getFieldJs "error").truthy then
    { s with error := data.getFieldJs "error" }
  else
    let s1 := { s with
      ingredients := jsOr (data.getFieldJs "ingredients") (.arr [])
      recipes := jsOr (data.getFieldJs "recipes") (.arr []) }
    if (data.getFieldJs "usage").truthy then
      let u := data.getFieldJs "usage"
      let newImpact := calculateImpact (u.getFieldJs "input_tokens").asNum
        (u.getFieldJs "output_tokens").asNum
      { s1 with
        impact := some newImpact
        totalImpact := { water := s1.totalImpact.water + newImpact.water
                         energy := s1.totalImpact.energy + newImpact.energy
                         co2 := s1.totalImpact.co2 + newImpact.co2
                         scans := s1.totalImpact.scans + 1 } }
    else s1

/-- Resolution of the fetch issued by analyzeText, App.jsx lines 102 to
130: on a response the data is handled and loading cleared; a rejected
fetch is caught and stores the generic retry message. -/
def analyzeTextResolve (s : ClientState) (outcome : FetchOutcome) : ClientState :=
  match outcome with
  | .success data => { receiveData s data with loading := false }
  | .networkError =>
    { s with error := .str "Failed to get recipes. Please try again.", loading := false }

/-- Start of analyzeImage, App.jsx lines 56 to 59: return without a call
when no image is selected, otherwise set loading, clear the error and
start the reader whose callback issues the one fetch. -/
def analyzeImageStart (s : ClientState) : ClientState × Bool :=
  match s.image with
  | none => (s, false)
  | some _ => ({ s with loading := true, error := .null }, true)

/-- Resolution of the fetch issued inside the reader callback of
analyzeImage, App.jsx lines 63 to 89.  On a response the data is handled
and loading cleared.  A rejected fetch rejects the anonymous async
callback itself; the try catch of analyzeImage finished when
readAsDataURL returned, so nothing observes that rejection and no state
update happens: the catch at line 91 is unreachable from the fetch. -/
def analyzeImageResolve (s : ClientState) (outcome : FetchOutcome) : ClientState :=
  match outcome with
  | .success data => { receiveData s data with loading := false }
  | .networkError => s

/-- The reset handler, App.jsx lines 133 to 143. -/
def reset (s : ClientState) : ClientState :=
  { s with mode := "choice"
           image := none
           imagePreview := none
           ingredients := .arr []
           textInput := ""
           recipes := .arr []
           error := .null
           impact := none
           expandedRecipe := none }

/-- Disabled attribute of the submit button of the text mode,
App.jsx line 349. -/
def submitTextDisabled (s : ClientState) : Bool :=
  s.loading ∨ jsTrim s.textInput = ""



def usageData (i o : ℚ) : Json :=
  .obj [("ingredients", .arr [.str "a"]), ("recipes", .arr [.str "r"]),
        ("usage", .obj [("input_tokens", .num i), ("output_tokens", .num o)])]

theorem getElem?_some_lt_length {l : List Char} {i : ℕ} {c : Char}
    (h : l[i]? = some c) : i < l.length := by
  by_contra hge
  rw [List.getElem?_eq_none (Nat.le_of_not_lt hge)] at h
  cases h

theorem firstIdxOf_eq_some_iff (c : Char) :
    ∀ (l : List Char) (i : ℕ),
      firstIdxOf c l = some i ↔ l[i]? = some c ∧ ∀ k, k < i → l[k]? ≠ some c := by
  intro l
  induction l with
  | nil => intro i; simp [firstIdxOf]
  | cons x xs ih =>
    intro i
    by_cases hx : x = c
    · subst hx
      simp only [firstIdxOf, if_pos rfl]
      cases i with
      | zero => simp
      | succ j =>
        constructor
        · intro h; exact absurd h (by simp)
        · rintro ⟨-, hall⟩
          exact absurd (by simp : (x :: xs)[0]? = some x) (hall 0 (Nat.succ_pos j))
    · simp only [firstIdxOf, if_neg hx]
      cases i with
      | zero =>
        simp only [Option.map_eq_some', List.getElem?_cons_zero]
        constructor
        · rintro ⟨a, -, ha⟩; exact absurd ha (by omega)
        · rintro ⟨h, -⟩; exact absurd (Option.some.inj h) hx
      | succ j =>
        simp only [Option.map_eq_some', List.getElem?_cons_succ]
        constructor
        · rintro ⟨a, ha, haj⟩
          have haj2 : a = j := by omega
          rw [haj2] at ha
          obtain ⟨h1, h2⟩ := (ih j).mp ha
          refine ⟨h1, ?_⟩
          intro k hk
          cases k with
          | zero =>
            simp only [List.getElem?_cons_zero]
            intro h
            exact hx (Option.some.inj h)
          | succ m =>
            simpa using h2 m (by omega)
        · rintro ⟨h1, h2⟩
          refine ⟨j, (ih j).mpr ⟨h1, ?_⟩, rfl⟩
          intro m hm
          simpa using h2 (m + 1) (by omega)

theorem lastIdxOf_eq_some_iff (c : Char) (l : List Char) (j : ℕ) :
    lastIdxOf c l = some j ↔ l[j]? = some c ∧ ∀ k, j < k → l[k]? ≠ some c := by
  unfold lastIdxOf
  simp only [Option.map_eq_some']
  constructor
  · rintro ⟨m, hm, hmj⟩
    obtain ⟨h1, h2⟩ := (firstIdxOf_eq_some_iff c l.reverse m).mp hm
    have hmlen : m < l.length := by
      have := getElem?_some_lt_length h1
      rwa [List.length_reverse] at this
    rw [List.getElem?_reverse hmlen] at h1
    constructor
    · rw [← hmj]; exact h1
    · intro k hk hkc
      have hklen : k < l.length := getElem?_some_lt_length hkc
      have hrevk : l.reverse[l.length - 1 - k]? = l[k]? := by
        rw [List.getElem?_reverse (by omega)]
        congr 1
        omega
      exact h2 (l.length - 1 - k) (by omega) (by rw [hrevk]; exact hkc)
  · rintro ⟨h1, h2⟩
    have hjlen : j < l.length := getElem?_some_lt_length h1
    refine ⟨l.length - 1 - j, ?_, by omega⟩
    refine (firstIdxOf_eq_some_iff c l.reverse (l.length - 1 - j)).mpr ⟨?_, ?_⟩
    · rw [List.getElem?_reverse (by omega)]
      have : l.length - 1 - (l.length - 1 - j) = j := by omega
      rw [this]
      exact h1
    · intro k hk hkc
      have hklen : k < l.length := by
        have := getElem?_some_lt_length hkc
        rwa [List.length_reverse] at this
      rw [List.getElem?_reverse hklen] at hkc
      exact h2 (l.length - 1 - k) (by omega) hkc

theorem lookupField_insertField_self (fs : List (String × Json)) (k : String) (v : Json) :
    lookupField (insertField fs k v) k = some v := by
  induction fs with
  | nil => simp [insertField, lookupField]
  | cons p rest ih =>
    obtain ⟨k1, v1⟩ := p
    by_cases h : k1 = k
    · simp [insertField, h, lookupField]
    · simp [insertField, h, lookupField, ih]

theorem lookupField_insertField_ne (fs : List (String × Json)) (k : String) (v : Json)
    (k2 : String) (h : k2 ≠ k) :
    lookupField (insertField fs k v) k2 = lookupField fs k2 := by
  induction fs with
  | nil => simp [insertField, lookupField, Ne.symm h]
  | cons p rest ih =>
    obtain ⟨k1, v1⟩ := p
    by_cases h1 : k1 = k
    · subst h1
      simp [insertField, lookupField, Ne.symm h]
    · simp only [insertField, if_neg h1, lookupField]
      by_cases h2 : k1 = k2
      · simp [h2]
      · simp [h2, ih]

theorem firstIdxOf_eq_none_iff (c : Char) (l : List Char) :
    firstIdxOf c l = none ↔ ∀ i : ℕ, l[i]? ≠ some c := by
  induction l with
  | nil => simp [firstIdxOf]
  | cons x xs ih =>
    by_cases hx : x = c
    · subst hx
      simp only [firstIdxOf, if_pos rfl]
      constructor
      · intro h; exact absurd h (by simp)
      · intro h; exact absurd (by simp : (x :: xs)[0]? = some x) (h 0)
    · simp only [firstIdxOf, if_neg hx, Option.map_eq_none']
      rw [ih]
      constructor
      · intro h i
        cases i with
        | zero =>
          simp only [List.getElem?_cons_zero]
          intro hc
          exact hx (Option.some.inj hc)
        | succ m => simpa using h m
      · intro h m
        simpa using h (m + 1)

theorem lastIdxOf_eq_none_iff (c : Char) (l : List Char) :
    lastIdxOf c l = none ↔ ∀ j : ℕ, l[j]? ≠ some c := by
  unfold lastIdxOf
  rw [Option.map_eq_none', firstIdxOf_eq_none_iff]
  constructor
  · intro h j hj
    have hjlen : j < l.length := getElem?_some_lt_length hj
    refine h (l.length - 1 - j) ?_
    rw [List.getElem?_reverse (by omega)]
    have heq : l.length - 1 - (l.length - 1 - j) = j := by omega
    rw [heq]
    exact hj
  · intro h m hm
    have hmlen : m < l.reverse.length := getElem?_some_lt_length hm
    rw [List.length_reverse] at hmlen
    rw [List.getElem?_reverse hmlen] at hm
    exact h _ hm

theorem extractJsonSpan_eq_some_iff (s : String) (span : String) :
    extractJsonSpan s = some span ↔
      ∃ i j, i < j ∧
        s.toList[i]? = some '\x7b' ∧
        (∀ k, k < i → s.toList[k]? ≠ some '\x7b') ∧
        s.toList[j]? = some '\x7d' ∧
        (∀ k, j < k → s.toList[k]? ≠ some '\x7d') ∧
        span = String.mk ((s.toList.drop i).take (j - i + 1)) := by
  unfold extractJsonSpan
  cases hf : firstIdxOf '\x7b' s.toList with
  | none =>
    simp only
    constructor
    · intro h; exact absurd h (by simp)
    · rintro ⟨i, j, -, hi, -, -, -, -⟩
      exact absurd hi ((firstIdxOf_eq_none_iff '\x7b' s.toList).mp hf i)
  | some i0 =>
    cases hl : lastIdxOf '\x7d' s.toList with
    | none =>
      simp only
      constructor
      · intro h; exact absurd h (by simp)
      · rintro ⟨i, j, -, -, -, hj, -, -⟩
        exact absurd hj ((lastIdxOf_eq_none_iff '\x7d' s.toList).mp hl j)
    | some j0 =>
      simp only
      by_cases hij0 : i0 < j0
      · rw [if_pos hij0]
        obtain ⟨hfi, hfmin⟩ := (firstIdxOf_eq_some_iff '\x7b' s.toList i0).mp hf
        obtain ⟨hlj, hlmax⟩ := (lastIdxOf_eq_some_iff '\x7d' s.toList j0).mp hl
        constructor
        · intro h
          exact ⟨i0, j0, hij0, hfi, hfmin, hlj, hlmax, (Option.some.inj h).symm⟩
        · rintro ⟨i, j, hij, hi, himin, hj, hjmax, hspan⟩
          have hi0 : i = i0 := by
            have := (firstIdxOf_eq_some_iff '\x7b' s.toList i).mpr ⟨hi, himin⟩
            rw [hf] at this
            exact (Option.some.inj this).symm
          have hj0 : j = j0 := by
            have := (lastIdxOf_eq_some_iff '\x7d' s.toList j).mpr ⟨hj, hjmax⟩
            rw [hl] at this
            exact (Option.some.inj this).symm
          rw [hspan, hi0, hj0]
      · rw [if_neg hij0]
        constructor
        · intro h; exact absurd h (by simp)
        · rintro ⟨i, j, hij, hi, himin, hj, hjmax, -⟩
          have hi0 : i = i0 := by
            have := (firstIdxOf_eq_some_iff '\x7b' s.toList i).mpr ⟨hi, himin⟩
            rw [hf] at this
            exact (Option.some.inj this).symm
          have hj0 : j = j0 := by
            have := (lastIdxOf_eq_some_iff '\x7d' s.toList j).mpr ⟨hj, hjmax⟩
            rw [hl] at this
            exact (Option.some.inj this).symm
          exact absurd (hi0 ▸ hj0 ▸ hij) hij0


/-- Claim C1: the impact estimate satisfies the stated formulas, is
strictly monotonic in the token total, and is all zero at zero tokens. -/
theorem c1_impact_formula (i o : ℕ) :
    (calculateImpact i o).water = ((i : ℚ) + o) / 1000 * 0.5 ∧
    (calculateImpact i o).energy = ((i : ℚ) + o) / 1000 * 0.0003 ∧
    (calculateImpact i o).co2 = ((i : ℚ) + o) / 1000 * 0.2 ∧
    (∀ i2 o2 : ℕ, i + o < i2 + o2 →
      (calculateImpact i o).water < (calculateImpact i2 o2).water ∧
      (calculateImpact i o).energy < (calculateImpact i2 o2).energy ∧
      (calculateImpact i o).co2 < (calculateImpact i2 o2).co2) ∧
    (calculateImpact 0 0).water = 0 ∧
    (calculateImpact 0 0).energy = 0 ∧
    (calculateImpact 0 0).co2 = 0 := by
  refine ⟨rfl, rfl, rfl, ?_, by norm_num [calculateImpact], by norm_num [calculateImpact],
    by norm_num [calculateImpact]⟩
  intro i2 o2 h
  have hq : ((i : ℚ) + o) < ((i2 : ℚ) + o2) := by exact_mod_cast h
  refine ⟨?_, ?_, ?_⟩
  · show ((i : ℚ) + o) / 1000 * 0.5 < ((i2 : ℚ) + o2) / 1000 * 0.5
    nlinarith [hq]
  · show ((i : ℚ) + o) / 1000 * 0.0003 < ((i2 : ℚ) + o2) / 1000 * 0.0003
    nlinarith [hq]
  · show ((i : ℚ) + o) / 1000 * 0.2 < ((i2 : ℚ) + o2) / 1000 * 0.2
    nlinarith [hq]

theorem c1_impact_formula_witness :
    1 + 2 < 3 + 4 ∧ (calculateImpact 1 2).water < (calculateImpact 3 4).water :=
  ⟨by decide, ((c1_impact_formula 1 2).2.2.2.1 3 4 (by decide)).1⟩

/-- Claim C3: with the credential configured, a POST whose photo mode has
no usable image, or whose text mode has no usable ingredient string, is
answered 400 before any upstream call. -/
theorem c3_gateway_validation (req : Req) (hpost : req.method = "POST")
    (h : (req.mode = .str "photo" ∧ req.image.truthy = false) ∨
         (req.mode = .str "text" ∧ req.ingredients.truthy = false)) :
    handlerStep1 true req =
      .respond 400 (some (.obj [("error", .str "Invalid request: provide image or ingredients")])) ∧
    ∀ upstream, handler true req upstream =
      (400, some (.obj [("error", .str "Invalid request: provide image or ingredients")])) := by
  have hstep : handlerStep1 true req =
      .respond 400 (some (.obj [("error", .str "Invalid request: provide image or ingredients")])) := by
    rcases h with ⟨hm, hi⟩ | ⟨hm, hi⟩ <;>
      simp [handlerStep1, hpost, hm, hi, Json.isStrEq]
  exact ⟨hstep, fun upstream => by simp [handler, hstep]⟩

theorem c3_gateway_validation_witness :
    ({ method := "POST", image := .null, ingredients := .null, mode := .str "photo" } : Req).method = "POST" ∧
    handlerStep1 true { method := "POST", image := .null, ingredients := .null, mode := .str "photo" } =
      .respond 400 (some (.obj [("error", .str "Invalid request: provide image or ingredients")])) :=
  ⟨rfl, (c3_gateway_validation
    { method := "POST", image := .null, ingredients := .null, mode := .str "photo" }
    rfl (Or.inl ⟨rfl, rfl⟩)).1⟩

/-- Claim C8: a blank text submission issues no call and changes nothing;
a nonblank one issues the single call, the in flight state keeps the
submit button disabled, and loading clears when the call resolves. -/
theorem c8_submit_text_guard (s : ClientState) :
    analyzeTextStart (setTextInput s "") = (setTextInput s "", false) ∧
    analyzeTextStart (setTextInput s "   ") = (setTextInput s "   ", false) ∧
    (analyzeTextStart (setTextInput s "eggs")).2 = true ∧
    (analyzeTextStart (setTextInput s "eggs")).1 =
      { s with textInput := "eggs", loading := true, error := .null } ∧
    submitTextDisabled (analyzeTextStart (setTextInput s "eggs")).1 = true ∧
    ∀ outcome, (analyzeTextResolve (analyzeTextStart (setTextInput s "eggs")).1 outcome).loading = false := by
  refine ⟨rfl, rfl, rfl, rfl, rfl, ?_⟩
  intro outcome
  cases outcome <;> rfl

theorem c8_submit_text_guard_witness :
    analyzeTextStart (setTextInput initialState "") = (setTextInput initialState "", false) :=
  (c8_submit_text_guard initialState).1

/-- Claim C9: reset returns to the choice screen, clears the pending
input, the result and the error, and leaves every field of the session
accumulator untouched. -/
theorem c9_reset_frame (s : ClientState) :
    reset s = { s with mode := "choice", image := none, imagePreview := none,
                       ingredients := .arr [], textInput := "", recipes := .arr [],
                       error := .null, impact := none, expandedRecipe := none } ∧
    (reset s).totalImpact.water = s.totalImpact.water ∧
    (reset s).totalImpact.energy = s.totalImpact.energy ∧
    (reset s).totalImpact.co2 = s.totalImpact.co2 ∧
    (reset s).totalImpact.scans = s.totalImpact.scans ∧
    (reset s).mode = "choice" ∧ (reset s).image = none ∧
    (reset s).imagePreview = none ∧ (reset s).ingredients = .arr [] ∧
    (reset s).textInput = "" ∧ (reset s).recipes = .arr [] ∧
    (reset s).error = .null ∧ (reset s).impact = none ∧
    (reset s).expandedRecipe = none :=
  ⟨rfl, rfl, rfl, rfl, rfl, rfl, rfl, rfl, rfl, rfl, rfl, rfl, rfl, rfl⟩

theorem c9_reset_frame_witness :
    (reset initialState).totalImpact.scans = initialState.totalImpact.scans :=
  (c9_reset_frame initialState).2.2.2.2.1

/-- Claim C4: on the stubbed text request the gateway returns 200 with the
parsed object merged with a usage field holding the stubbed token counts. -/
theorem c4_gateway_success (i o : ℚ) :
    handler true
      { method := "POST", image := .null, ingredients := .str "chicken, rice", mode := .str "text" }
      (.ok { text := "\x7b\"ingredients\":[\"chicken\",\"rice\"],\"recipes\":[\x7b\"name\":\"Fried Rice\",\"description\":\"d\",\"instructions\":[\"step1\"]\x7d]\x7d",
             input_tokens := i, output_tokens := o }) =
    (200, some (.obj
      [("ingredients", .arr [.str "chicken", .str "rice"]),
       ("recipes", .arr [.obj
         [("name", .str "Fried Rice"),
          ("description", .str "d"),
          ("instructions", .arr [.str "step1"])]]),
       ("usage", .obj [("input_tokens", .num i), ("output_tokens", .num o)])])) := by
  rfl

theorem c4_gateway_success_witness :
    handler true
      { method := "POST", image := .null, ingredients := .str "chicken, rice", mode := .str "text" }
      (.ok { text := "\x7b\"ingredients\":[\"chicken\",\"rice\"],\"recipes\":[\x7b\"name\":\"Fried Rice\",\"description\":\"d\",\"instructions\":[\"step1\"]\x7d]\x7d",
             input_tokens := 100, output_tokens := 50 }) =
    (200, some (.obj
      [("ingredients", .arr [.str "chicken", .str "rice"]),
       ("recipes", .arr [.obj
         [("name", .str "Fried Rice"),
          ("description", .str "d"),
          ("instructions", .arr [.str "step1"])]]),
       ("usage", .obj [("input_tokens", .num 100), ("output_tokens", .num 50)])])) :=
  c4_gateway_success 100 50

/-- Claim C5: each successful analysis carrying usage adds its impact to
the session accumulator and bumps the scan count, and after the two
stubbed analyses the accumulator is the elementwise sum of the two
impacts with the scan count two. -/
theorem c5_session_accumulator :
    (∀ (s : ClientState) (data : Json),
      (data.getFieldJs "error").truthy = false →
      (data.getFieldJs "usage").truthy = true →
      (analyzeTextResolve s (.success data)).totalImpact =
        { water := s.totalImpact.water + (calculateImpact
            ((data.getFieldJs "usage").getFieldJs "input_tokens").asNum
            ((data.getFieldJs "usage").getFieldJs "output_tokens").asNum).water
          energy := s.totalImpact.energy + (calculateImpact
            ((data.getFieldJs "usage").getFieldJs "input_tokens").asNum
            ((data.getFieldJs "usage").getFieldJs "output_tokens").asNum).energy
          co2 := s.totalImpact.co2 + (calculateImpact
            ((data.getFieldJs "usage").getFieldJs "input_tokens").asNum
            ((data.getFieldJs "usage").getFieldJs "output_tokens").asNum).co2
          scans := s.totalImpact.scans + 1 }) ∧
    (analyzeTextResolve (analyzeTextStart (analyzeTextResolve
        (analyzeTextStart (setTextInput initialState "eggs")).1
        (.success (usageData 100 50)))).1
        (.success (usageData 200 100))).totalImpact.water =
      (calculateImpact 100 50).water + (calculateImpact 200 100).water ∧
    (analyzeTextResolve (analyzeTextStart (analyzeTextResolve
        (analyzeTextStart (setTextInput initialState "eggs")).1
        (.success (usageData 100 50)))).1
        (.success (usageData 200 100))).totalImpact.energy =
      (calculateImpact 100 50).energy + (calculateImpact 200 100).energy ∧
    (analyzeTextResolve (analyzeTextStart (analyzeTextResolve
        (analyzeTextStart (setTextInput initialState "eggs")).1
        (.success (usageData 100 50)))).1
        (.success (usageData 200 100))).totalImpact.co2 =
      (calculateImpact 100 50).co2 + (calculateImpact 200 100).co2 ∧
    (analyzeTextResolve (analyzeTextStart (analyzeTextResolve
        (analyzeTextStart (setTextInput initialState "eggs")).1
        (.success (usageData 100 50)))).1
        (.success (usageData 200 100))).totalImpact.scans = 2 := by
  refine ⟨?_, ?_, ?_, ?_, rfl⟩
  · intro s data herr husage
    simp only [analyzeTextResolve, receiveData, herr, Bool.false_eq_true, if_false,
      husage, if_true]
  · have h : (analyzeTextResolve (analyzeTextStart (analyzeTextResolve
        (analyzeTextStart (setTextInput initialState "eggs")).1
        (.success (usageData 100 50)))).1
        (.success (usageData 200 100))).totalImpact.water =
      0 + (calculateImpact 100 50).water + (calculateImpact 200 100).water := rfl
    rw [h, zero_add]
  · have h : (analyzeTextResolve (analyzeTextStart (analyzeTextResolve
        (analyzeTextStart (setTextInput initialState "eggs")).1
        (.success (usageData 100 50)))).1
        (.success (usageData 200 100))).totalImpact.energy =
      0 + (calculateImpact 100 50).energy + (calculateImpact 200 100).energy := rfl
    rw [h, zero_add]
  · have h : (analyzeTextResolve (analyzeTextStart (analyzeTextResolve
        (analyzeTextStart (setTextInput initialState "eggs")).1
        (.success (usageData 100 50)))).1
        (.success (usageData 200 100))).totalImpact.co2 =
      0 + (calculateImpact 100 50).co2 + (calculateImpact 200 100).co2 := rfl
    rw [h, zero_add]

theorem c5_session_accumulator_witness :
    ((usageData 100 50).getFieldJs "error").truthy = false ∧
    ((usageData 100 50).getFieldJs "usage").truthy = true ∧
    (analyzeTextResolve initialState (.success (usageData 100 50))).totalImpact =
      { water := initialState.totalImpact.water + (calculateImpact
          (((usageData 100 50).getFieldJs "usage").getFieldJs "input_tokens").asNum
          (((usageData 100 50).getFieldJs "usage").getFieldJs "output_tokens").asNum).water
        energy := initialState.totalImpact.energy + (calculateImpact
          (((usageData 100 50).getFieldJs "usage").getFieldJs "input_tokens").asNum
          (((usageData 100 50).getFieldJs "usage").getFieldJs "output_tokens").asNum).energy
        co2 := initialState.totalImpact.co2 + (calculateImpact
          (((usageData 100 50).getFieldJs "usage").getFieldJs "input_tokens").asNum
          (((usageData 100 50).getFieldJs "usage").getFieldJs "output_tokens").asNum).co2
        scans := initialState.totalImpact.scans + 1 } :=
  ⟨rfl, rfl, c5_session_accumulator.1 initialState (usageData 100 50) rfl rfl⟩

/-- Claim C6: a rejected fetch on a text submission stores the generic
retry message and clears loading, but on a photo submission the rejection
happens inside the reader callback where nothing catches it, so the state
is left as it was, still loading with no error. -/
theorem c6_network_error_paths :
    (∀ s : ClientState, analyzeTextResolve s .networkError =
      { s with error := .str "Failed to get recipes. Please try again.", loading := false }) ∧
    (∀ s : ClientState, analyzeImageResolve s .networkError = s) ∧
    (analyzeImageStart { initialState with mode := "photo", image := some "img" }).2 = true ∧
    analyzeImageResolve
      (analyzeImageStart { initialState with mode := "photo", image := some "img" }).1
      .networkError =
      (analyzeImageStart { initialState with mode := "photo", image := some "img" }).1 ∧
    ((analyzeImageStart { initialState with mode := "photo", image := some "img" }).1).loading = true ∧
    ((analyzeImageStart { initialState with mode := "photo", image := some "img" }).1).error = .null ∧
    (analyzeImageResolve
      (analyzeImageStart { initialState with mode := "photo", image := some "img" }).1
      .networkError).loading = true ∧
    (analyzeImageResolve
      (analyzeImageStart { initialState with mode := "photo", image := some "img" }).1
      .networkError).error = .null :=
  ⟨fun _ => rfl, fun _ => rfl, rfl, rfl, rfl, rfl, rfl, rfl⟩

theorem c6_network_error_paths_witness :
    analyzeTextResolve initialState .networkError =
      { initialState with error := .str "Failed to get recipes. Please try again.",
                          loading := false } :=
  c6_network_error_paths.1 initialState

/-- Claim C7: a failed submission never touches ingredients or recipes;
an error field in the body is stored as the error for both modes, a
rejected text fetch stores the retry message, but a rejected photo fetch
stores nothing, leaving the error null. -/
theorem c7_failure_frame (s : ClientState) (data : Json)
    (herr : (data.getFieldJs "error").truthy = true) :
    (analyzeTextResolve s (.success data)).error = data.getFieldJs "error" ∧
    (analyzeTextResolve s (.success data)).ingredients = s.ingredients ∧
    (analyzeTextResolve s (.success data)).recipes = s.recipes ∧
    (analyzeImageResolve s (.success data)).error = data.getFieldJs "error" ∧
    (analyzeImageResolve s (.success data)).ingredients = s.ingredients ∧
    (analyzeImageResolve s (.success data)).recipes = s.recipes ∧
    (analyzeTextResolve s .networkError).error =
      .str "Failed to get recipes. Please try again." ∧
    (analyzeTextResolve s .networkError).ingredients = s.ingredients ∧
    (analyzeTextResolve s .networkError).recipes = s.recipes ∧
    (analyzeImageResolve s .networkError).ingredients = s.ingredients ∧
    (analyzeImageResolve s .networkError).recipes = s.recipes ∧
    (analyzeImageResolve s .networkError).error = s.error := by
  refine ⟨?_, ?_, ?_, ?_, ?_, ?_, rfl, rfl, rfl, rfl, rfl, rfl⟩ <;>
    simp only [analyzeTextResolve, analyzeImageResolve, receiveData, herr, if_true]

theorem c7_failure_frame_witness :
    ((Json.obj [("error", .str "boom")]).getFieldJs "error").truthy = true ∧
    (analyzeTextResolve initialState (.success (.obj [("error", .str "boom")]))).error =
      (Json.obj [("error", .str "boom")]).getFieldJs "error" :=
  ⟨rfl, (c7_failure_frame initialState (.obj [("error", .str "boom")]) rfl).1⟩

/-- Claim C2: the gateway takes the substring from the first opening curly
brace to the last closing one and parses it; when no such span exists or
parsing fails it answers 500 with the fixed parse failure message and the
raw reply text, and every reply gets exactly one of the two response
shapes, never an empty result. -/
theorem c2_gateway_extraction (reply : UpstreamReply) :
    (∀ span, extractJsonSpan reply.text = some span ↔
      ∃ i j, i < j ∧
        reply.text.toList[i]? = some '\x7b' ∧
        (∀ k, k < i → reply.text.toList[k]? ≠ some '\x7b') ∧
        reply.text.toList[j]? = some '\x7d' ∧
        (∀ k, j < k → reply.text.toList[k]? ≠ some '\x7d') ∧
        span = String.mk ((reply.text.toList.drop i).take (j - i + 1))) ∧
    ((extractJsonSpan reply.text = none ∨
      ∃ span, extractJsonSpan reply.text = some span ∧ Json.parseStr span = none) →
      handlerStep2 reply = (500, parseErrorBody reply.text)) ∧
    (handlerStep2 reply = (500, parseErrorBody reply.text) ∨
      ∃ fields, handlerStep2 reply =
        (200, .obj (insertField fields "usage" (usageJson reply)))) := by
  refine ⟨fun span => extractJsonSpan_eq_some_iff reply.text span, ?_, ?_⟩
  · intro h
    rcases h with h | ⟨span, hs, hp⟩
    · simp only [handlerStep2, h]
    · simp only [handlerStep2, hs, hp]
  · cases he : extractJsonSpan reply.text with
    | none => exact Or.inl (by simp only [handlerStep2, he])
    | some span =>
      cases hp : Json.parseStr span with
      | none => exact Or.inl (by simp only [handlerStep2, he, hp])
      | some analysis =>
        exact Or.inr ⟨jsonFields analysis, by simp only [handlerStep2, he, hp]⟩

theorem c2_gateway_extraction_witness :
    (extractJsonSpan "thinking" = none ∨
      ∃ span, extractJsonSpan "thinking" = some span ∧ Json.parseStr span = none) ∧
    handlerStep2 { text := "thinking", input_tokens := 1, output_tokens := 2 } =
      (500, parseErrorBody "thinking") :=
  ⟨Or.inl rfl,
   (c2_gateway_extraction { text := "thinking", input_tokens := 1, output_tokens := 2 }).2.1
     (Or.inl rfl)⟩

/-- Claim C10: a successful response is the parsed object spread first and
the usage key set afterwards, so the upstream token counts overwrite any
usage key of the model JSON while every other key, an error key included,
passes through verbatim, and the client then stores such an error key as
its error. -/
theorem c10_spread_usage (reply : UpstreamReply) (span : String)
    (fields : List (String × Json))
    (hspan : extractJsonSpan reply.text = some span)
    (hparse : Json.parseStr span = some (.obj fields)) :
    handlerStep2 reply = (200, .obj (insertField fields "usage" (usageJson reply))) ∧
    lookupField (insertField fields "usage" (usageJson reply)) "usage" =
      some (usageJson reply) ∧
    (∀ k, ¬ k = "usage" →
      lookupField (insertField fields "usage" (usageJson reply)) k = lookupField fields k) ∧
    (∀ (s : ClientState) (e : Json),
      lookupField fields "error" = some e → e.truthy = true →
      (analyzeTextResolve s
        (.success (.obj (insertField fields "usage" (usageJson reply))))).error = e) := by
  refine ⟨by simp only [handlerStep2, hspan, hparse, jsonFields],
          lookupField_insertField_self fields "usage" (usageJson reply),
          fun k hk => lookupField_insertField_ne fields "usage" (usageJson reply) k hk, ?_⟩
  intro s e he htr
  have hget : (Json.obj (insertField fields "usage" (usageJson reply))).getFieldJs "error" = e := by
    simp only [Json.getFieldJs]
    rw [lookupField_insertField_ne fields "usage" (usageJson reply) "error" (by decide), he]
  simp only [analyzeTextResolve, receiveData, hget, htr, if_true]

theorem c10_spread_usage_witness :
    extractJsonSpan "\x7b\"keep\":\"k\",\"usage\":\"old\",\"error\":\"boom\"\x7d" =
      some "\x7b\"keep\":\"k\",\"usage\":\"old\",\"error\":\"boom\"\x7d" ∧
    Json.parseStr "\x7b\"keep\":\"k\",\"usage\":\"old\",\"error\":\"boom\"\x7d" =
      some (.obj [("keep", .str "k"), ("usage", .str "old"), ("error", .str "boom")]) ∧
    handlerStep2
      { text := "\x7b\"keep\":\"k\",\"usage\":\"old\",\"error\":\"boom\"\x7d",
        input_tokens := 3, output_tokens := 4 } =
      (200, .obj (insertField [("keep", .str "k"), ("usage", .str "old"), ("error", .str "boom")]
        "usage" (usageJson { text := "\x7b\"keep\":\"k\",\"usage\":\"old\",\"error\":\"boom\"\x7d",
                             input_tokens := 3, output_tokens := 4 }))) ∧
    (analyzeTextResolve initialState
      (.success (.obj (insertField [("keep", .str "k"), ("usage", .str "old"), ("error", .str "boom")]
        "usage" (usageJson { text := "\x7b\"keep\":\"k\",\"usage\":\"old\",\"error\":\"boom\"\x7d",
                             input_tokens := 3, output_tokens := 4 }))))).error = .str "boom" := by
  have h := c10_spread_usage
    { text := "\x7b\"keep\":\"k\",\"usage\":\"old\",\"error\":\"boom\"\x7d",
      input_tokens := 3, output_tokens := 4 }
    "\x7b\"keep\":\"k\",\"usage\":\"old\",\"error\":\"boom\"\x7d"
    [("keep", .str "k"), ("usage", .str "old"), ("error", .str "boom")]
    rfl rfl
  exact ⟨rfl, rfl, h.1, h.2.2.2 initialState (.str "boom") rfl rfl⟩
